import Mathlib

set_option maxHeartbeats 1000000

/-!
Verification of the Command Safety Policy Engine
(`safety_guardrails.py`, class `SafetyGuardrails`).

The Python code is shallowly embedded below.  Machine-level details that are
external to the engine are made explicit parameters:

* `resolve` models `os.path.abspath`; it returns `none` when resolution
  raises (the `try`/`except` in `is_path_protected`).
* `protPaths` models `self.protected_paths`, the platform-selected list
  computed by `_get_protected_paths` from the configuration and environment.
* `parseJson` models `json.load`; `none` models a `json.JSONDecodeError`.
* Reading the config file is modelled by `ReadResult`
  (missing / unreadable / content), mirroring the exceptions `open` can
  raise (`FileNotFoundError`, a non-`FileNotFoundError` `OSError` such as
  `PermissionError`) or the text read.

String primitives used by the Python code (`strip`, `lower`, `split`,
substring `in`, `startswith`, `title`, `replace('_',' ')`) are embedded
as executable functions on the character list of the string.
-/

/-- Python `str.strip()`: drop leading and trailing whitespace. -/
def stripWS (s : String) : String :=
  String.mk (((s.data.dropWhile Char.isWhitespace).reverse.dropWhile Char.isWhitespace).reverse)

/-- Python `str.lower()` (ASCII model). -/
def lowerStr (s : String) : String :=
  String.mk (s.data.map Char.toLower)

/-- Helper for Python substring test: is `p` a contiguous sublist of the
second argument? -/
def infixChk (p : List Char) : List Char → Bool
  | [] => p.isEmpty
  | c :: rest => p.isPrefixOf (c :: rest) || infixChk p rest

/-- Python `pat in s` on strings. -/
def strContains (s pat : String) : Bool :=
  infixChk pat.data s.data

/-- Python `s.split()[0] if s.split() else ''`: the first
whitespace-delimited token of `s`, or the empty string when there is none. -/
def firstWord (s : String) : String :=
  String.mk ((s.data.dropWhile Char.isWhitespace).takeWhile (fun c => !c.isWhitespace))

/-- Python `s.startswith(pre)`. -/
def strStarts (pre s : String) : Bool :=
  pre.data.isPrefixOf s.data

/-- Python `str.title()` on a character list: a character is uppercased when
the previous character is not alphabetic, lowercased otherwise. -/
def titleChars : List Char → Bool → List Char
  | [], _ => []
  | c :: rest, prevAlpha =>
    (if prevAlpha then c.toLower else c.toUpper) :: titleChars rest c.isAlpha

/-- Python `s.replace('_', ' ')` for the single-character pattern used by
`_get_dangerous_commands`. -/
def underscoreToSpace (s : String) : String :=
  String.mk (s.data.map (fun c => if c = '_' then ' ' else c))

/-- The value stored for a tier in `_get_dangerous_commands`:
`f"{risk_level.replace('_', ' ').title()} risk command"`. -/
def tierDesc (tier : String) : String :=
  String.mk (titleChars (underscoreToSpace tier).data false) ++ " risk command"

/-- The configuration dictionary, with the keys the engine reads.
`dangerous_commands` is an ordered association list from tier name to the
list of command signatures, mirroring the JSON object's insertion order. -/
structure Config where
  default_mode : String
  protected_paths_windows : List String
  protected_paths_unix : List String
  dangerous_commands : List (String × List String)
  safe_commands : List String
  destructive_flags : List String
  protected_extensions : List String
deriving DecidableEq, Repr

/-- `_get_default_config`. -/
def get_default_config : Config :=
  { default_mode := "safe"
  , protected_paths_windows := []
  , protected_paths_unix := []
  , dangerous_commands := [("critical", []), ("high_risk", []), ("medium_risk", [])]
  , safe_commands := ["dir", "ls", "pwd"]
  , destructive_flags := ["-rf", "/s /q"]
  , protected_extensions := [".exe", ".dll"] }

/-- `self.config.get('dangerous_commands', {}).get('critical', [])` in
`assess_command_risk`. -/
def critical_commands (cfg : Config) : List String :=
  ((cfg.dangerous_commands.find? (fun p => p.1 == "critical")).map Prod.snd).getD []

/-- A Python dictionary update `d[k] = v`, with the dictionary modelled by
its lookup function. -/
def updKey (a : String → Option String) (k v : String) : String → Option String :=
  fun w => if w = k then some v else a w

/-- The inner loop of `_get_dangerous_commands`:
`for cmd in cmd_list: commands[cmd.split()[0]] = f"... risk command"`. -/
def tierFold (a : String → Option String) (tier : String) (cmds : List String) :
    String → Option String :=
  cmds.foldl (fun acc c => updKey acc (firstWord c) (tierDesc tier)) a

/-- `_get_dangerous_commands`: every tier of `config['dangerous_commands']`
is folded into a single dictionary keyed by the first token of each
signature; entries of later tiers overwrite earlier ones. -/
def dangerousDict (tiers : List (String × List String)) : String → Option String :=
  tiers.foldl (fun acc p => tierFold acc p.1 p.2) (fun _ => none)

/-- The tuple `(risk_level, reason, warnings)` returned by
`assess_command_risk`. -/
structure RiskResult where
  level : String
  reason : String
  warnings : List String
deriving DecidableEq, Repr

/-- Existence of a match of the regex fragment `\s*` followed by `y` at the
head of the list (used after a literal `x` has matched). -/
def wsThen (y : List Char) : List Char → Bool
  | [] => y.isPrefixOf ([] : List Char)
  | c :: rest => y.isPrefixOf (c :: rest) || (c.isWhitespace && wsThen y rest)

/-- `re.search` for a pattern of the shape `x \s* y`: a match may start at
any position. -/
def searchXY (x y : List Char) : List Char → Bool
  | [] => x.isPrefixOf ([] : List Char) && wsThen y []
  | c :: rest =>
    (x.isPrefixOf (c :: rest) && wsThen y ((c :: rest).drop x.length)) || searchXY x y rest

/-- The suspicious-pattern loop of `assess_command_risk`: the five regexes
tried in order, returning the source text of the first one that matches. -/
def suspiciousHit (cmd : String) : Option String :=
  if searchXY ['>'] ['n', 'u', 'l'] cmd.data then some ">\\s*nul"
  else if strContains cmd "2>&1" then some "2>&1"
  else if searchXY ['|'] ['d', 'e', 'l'] cmd.data then some "\\|\\s*del"
  else if searchXY ['&'] ['d', 'e', 'l'] cmd.data then some "&\\s*del"
  else if searchXY ['&', '&'] ['d', 'e', 'l'] cmd.data then some "&&\\s*del"
  else none

/-- `assess_command_risk(self, command)`.  `protPaths` is
`self.protected_paths`. -/
def assess_command_risk (cfg : Config) (protPaths : List String) (command : String) :
    RiskResult :=
  let cmd := lowerStr (stripWS command)
  let first_word := firstWord cmd
  if (critical_commands cfg).any (fun pat => strContains cmd pat) then
    ⟨"critical", "Destructive system operation detected", ["SYSTEM DESTRUCTION RISK"]⟩
  else
    match dangerousDict cfg.dangerous_commands first_word with
    | some risk_desc =>
      if cfg.destructive_flags.any (fun pat => strContains cmd pat) then
        ⟨"high", "High-risk " ++ risk_desc ++ " with destructive flags",
          ["Dangerous command: " ++ risk_desc, "Recursive/forced operation detected"]⟩
      else
        ⟨"medium", "Potentially dangerous: " ++ risk_desc, ["Dangerous command: " ++ risk_desc]⟩
    | none =>
      match protPaths.find? (fun p => strContains cmd (lowerStr p)) with
      | some p =>
        ⟨"high", "System directory access detected", ["Operation on protected system path: " ++ p]⟩
      | none =>
        match suspiciousHit cmd with
        | some pat =>
          ⟨"medium", "Suspicious command pattern", ["Suspicious pattern detected: " ++ pat]⟩
        | none =>
          if first_word ∈ cfg.safe_commands then ⟨"safe", "Read-only operation", []⟩
          else ⟨"low", "Standard command", []⟩

/-- The `for protected in self.protected_paths` loop of `is_path_protected`.
A `none` from `resolve` models `os.path.abspath` raising, which the
surrounding `except` turns into an overall `False`. -/
def protScan (resolve : String → Option String) (abs : String) : List String → Bool
  | [] => false
  | p :: rest =>
    match resolve p with
    | none => false
    | some pp => strStarts pp abs || protScan resolve abs rest

/-- `is_path_protected(self, path)`. -/
def is_path_protected (resolve : String → Option String) (protPaths : List String)
    (path : String) : Bool :=
  match resolve path with
  | none => false
  | some abs => protScan resolve abs protPaths

/-- The dictionary returned by `validate_command`. -/
structure Decision where
  allowed : Bool
  risk_level : String
  reason : String
  warnings : List String
  requires_confirmation : Bool
  blocked_reason : Option String
deriving DecidableEq, Repr

/-- `validate_command(self, command, working_dir=None)`.  `safe_mode` is
`self.safe_mode`; `working_dir = some ""` models the falsy empty string,
which Python's `if working_dir and ...` treats like `None`. -/
def validate_command (cfg : Config) (protPaths : List String)
    (resolve : String → Option String) (safe_mode : Bool)
    (command : String) (working_dir : Option String) : Decision :=
  let r := assess_command_risk cfg protPaths command
  if safe_mode = true ∧ r.level = "critical" then
    { allowed := false, risk_level := r.level, reason := r.reason, warnings := r.warnings,
      requires_confirmation := false,
      blocked_reason := some "Command blocked due to critical risk level" }
  else
    let base : Decision :=
      { allowed := true, risk_level := r.level, reason := r.reason, warnings := r.warnings,
        requires_confirmation := decide (r.level = "high" ∨ r.level = "medium"),
        blocked_reason := none }
    match working_dir with
    | some wd =>
      if wd ≠ "" ∧ is_path_protected resolve protPaths wd = true then
        { base with
          warnings := base.warnings ++ ["Working directory is in protected system path: " ++ wd],
          requires_confirmation := base.requires_confirmation || safe_mode }
      else base
    | none => base

/-- Outcome of opening and reading the configuration file in
`_load_config`. -/
inductive ReadResult where
  | missing
  | unreadable
  | content (s : String)
deriving DecidableEq, Repr

/-- Result of `_load_config`: a configuration (with a flag recording whether
the invalid-JSON diagnostic was printed), or a propagated exception. -/
inductive LoadResult where
  | ok (cfg : Config) (diagnostic : Bool)
  | raised
deriving DecidableEq, Repr

/-- `_load_config(self, config_file)`: `except FileNotFoundError` and
`except json.JSONDecodeError` fall back to `_get_default_config`; any other
exception from `open` (an unreadable file) is not caught. -/
def load_config (parseJson : String → Option Config) : ReadResult → LoadResult
  | .missing => .ok get_default_config false
  | .unreadable => .raised
  | .content s =>
    match parseJson s with
    | some cfg => .ok cfg false
    | none => .ok get_default_config true

/-- Modelled from the spec: "equal to or nested under (a filesystem
descendant of) some protected directory" for resolved absolute paths, with
`/` as the path separator.  Used only to compare the specified behaviour of
`is_path_protected` with the implemented one. -/
def isDescendantOf (abs dir : String) : Bool :=
  (abs == dir) || strStarts (dir ++ "/") abs

/-- Default configuration extended with a critical-tier signature whose
first token also appears in the high-risk tier (for concrete evaluation). -/
def cfgRm : Config :=
  { get_default_config with
      dangerous_commands := [("critical", ["rm -rf /"]), ("high_risk", ["rm"]), ("medium_risk", [])] }

/-- Default configuration whose only dangerous-command entry is a
critical-tier signature (for concrete evaluation). -/
def cfgShutdown : Config :=
  { get_default_config with
      dangerous_commands := [("critical", ["shutdown -h now"])] }

/-- Default configuration with a single one-word critical-tier signature
(for concrete evaluation). -/
def cfgFmt : Config :=
  { get_default_config with
      dangerous_commands := [("critical", ["fmt"]), ("high_risk", []), ("medium_risk", [])] }

/-- Membership in a found tier: a signature of `critical_commands` comes
from a tier of the configuration named `critical`. -/
theorem critical_commands_mem {cfg : Config} {sig : String}
    (h : sig ∈ critical_commands cfg) :
    ∃ p ∈ cfg.dangerous_commands, p.1 = "critical" ∧ sig ∈ p.2 := by
  unfold critical_commands at h
  cases hf : cfg.dangerous_commands.find? (fun p => p.1 == "critical") with
  | none => rw [hf] at h; simp at h
  | some p =>
    rw [hf] at h
    simp at h
    refine ⟨p, List.mem_of_find?_eq_some hf, ?_, h⟩
    have := List.find?_some hf
    simpa using this

/-- C2: if the stripped, lowercased command text contains a configured
critical-tier signature as a substring, `assess_command_risk` answers
`critical` with reason `Destructive system operation detected` and warnings
exactly `[SYSTEM DESTRUCTION RISK]`; being the first rule checked, no other
rule can override this result.  (The code realises the case-insensitive
comparison by lowercasing the command before the substring test.) -/
theorem assess_critical_of_contains (cfg : Config) (prot : List String) (cmd sig : String)
    (h1 : sig ∈ critical_commands cfg)
    (h2 : strContains (lowerStr (stripWS cmd)) sig = true) :
    assess_command_risk cfg prot cmd =
      ⟨"critical", "Destructive system operation detected", ["SYSTEM DESTRUCTION RISK"]⟩ := by
  have hany : (critical_commands cfg).any
      (fun pat => strContains (lowerStr (stripWS cmd)) pat) = true :=
    List.any_eq_true.mpr ⟨sig, h1, h2⟩
  simp [assess_command_risk, hany]

/-- C2 witness: the configuration `cfgFmt` has the critical signature
`fmt`, and the command `FMT x` contains it case-insensitively. -/
theorem assess_critical_of_contains_witness :
    ("fmt" ∈ critical_commands cfgFmt ∧
      strContains (lowerStr (stripWS "FMT x")) "fmt" = true) ∧
    assess_command_risk cfgFmt [] "FMT x" =
      ⟨"critical", "Destructive system operation detected", ["SYSTEM DESTRUCTION RISK"]⟩ :=
  ⟨⟨by decide, by decide⟩, assess_critical_of_contains cfgFmt [] "FMT x" "fmt" (by decide) (by decide)⟩

/-- C3 counterexample: in `cfgRm` the first token `rm` of `rm -rf /` is a
configured dangerous-command name (the high-risk tier holds `rm`) and the
command contains the configured destructive flag `-rf`, yet the assessed
level is `critical`, not `high`: the critical-signature rule is checked
first and the command contains the critical signature `rm -rf /`. -/
theorem assess_dangerous_flag_not_always_high :
    dangerousDict cfgRm.dangerous_commands
        (firstWord (lowerStr (stripWS "rm -rf /"))) = some "High Risk risk command" ∧
    cfgRm.destructive_flags.any
        (fun pat => strContains (lowerStr (stripWS "rm -rf /")) pat) = true ∧
    (assess_command_risk cfgRm [] "rm -rf /").level = "critical" := by
  refine ⟨?_, by decide, by decide⟩
  decide

/-- C3 amended: when additionally the stripped, lowercased command does not
contain any critical-tier signature, a dangerous first token together with
a destructive-flag substring yields level exactly `high` with the warning
`Recursive/forced operation detected` appended, and without a
destructive-flag substring it yields level `medium`. -/
theorem assess_dangerous_family_levels (cfg : Config) (prot : List String) (cmd desc : String)
    (hnc : (critical_commands cfg).any
      (fun pat => strContains (lowerStr (stripWS cmd)) pat) = false)
    (hd : dangerousDict cfg.dangerous_commands (firstWord (lowerStr (stripWS cmd))) = some desc) :
    (cfg.destructive_flags.any (fun pat => strContains (lowerStr (stripWS cmd)) pat) = true →
      assess_command_risk cfg prot cmd =
        ⟨"high", "High-risk " ++ desc ++ " with destructive flags",
          ["Dangerous command: " ++ desc, "Recursive/forced operation detected"]⟩) ∧
    (cfg.destructive_flags.any (fun pat => strContains (lowerStr (stripWS cmd)) pat) = false →
      assess_command_risk cfg prot cmd =
        ⟨"medium", "Potentially dangerous: " ++ desc, ["Dangerous command: " ++ desc]⟩) := by
  constructor <;> intro hf <;> simp [assess_command_risk, hnc, hd, hf]

/-- C3 amended witness: `rm -rf x` in `cfgRm` contains no critical
signature, has dangerous first token `rm` and destructive flag `-rf`, and
is assessed exactly `high`. -/
theorem assess_dangerous_family_levels_witness :
    ((critical_commands cfgRm).any
        (fun pat => strContains (lowerStr (stripWS "rm -rf x")) pat) = false ∧
      dangerousDict cfgRm.dangerous_commands
        (firstWord (lowerStr (stripWS "rm -rf x"))) = some "High Risk risk command" ∧
      cfgRm.destructive_flags.any
        (fun pat => strContains (lowerStr (stripWS "rm -rf x")) pat) = true) ∧
    assess_command_risk cfgRm [] "rm -rf x" =
      ⟨"high", "High-risk High Risk risk command with destructive flags",
        ["Dangerous command: High Risk risk command", "Recursive/forced operation detected"]⟩ :=
  ⟨⟨by decide, by decide, by decide⟩,
    (assess_dangerous_family_levels cfgRm [] "rm -rf x" "High Risk risk command"
      (by decide) (by decide)).1 (by decide)⟩

/-- C4 counterexample: in `cfgShutdown` the token `shutdown` occurs solely
as the first token of the critical-tier signature `shutdown -h now` (the
high/medium tiers are absent), and `shutdown now` does not contain the full
signature; the claim predicts the dangerous-command-family rule does not
fire, but the code fires it: the combined dictionary of
`_get_dangerous_commands` includes the critical tier, so the command is
assessed `medium` with a `Dangerous command: Critical risk command`
warning rather than falling through to the `low` default. -/
theorem assess_family_fires_from_critical_tier :
    cfgShutdown.dangerous_commands = [("critical", ["shutdown -h now"])] ∧
    strContains (lowerStr (stripWS "shutdown now")) "shutdown -h now" = false ∧
    assess_command_risk cfgShutdown [] "shutdown now" =
      ⟨"medium", "Potentially dangerous: Critical risk command",
        ["Dangerous command: Critical risk command"]⟩ := by
  refine ⟨rfl, by decide, by decide⟩

/-- A tier's inner loop stores its description at the first token of each
of its signatures (and keeps it if already stored). -/
theorem tierFold_writes (cmds : List String) :
    ∀ (a : String → Option String) (tier w : String),
      ((∃ c ∈ cmds, firstWord c = w) ∨ a w = some (tierDesc tier)) →
      tierFold a tier cmds w = some (tierDesc tier) := by
  induction cmds with
  | nil =>
    intro a tier w h
    rcases h with ⟨c, hc, _⟩ | ha
    · exact absurd hc (List.not_mem_nil c)
    · simpa [tierFold] using ha
  | cons c0 rest ih =>
    intro a tier w h
    rw [show tierFold a tier (c0 :: rest)
        = tierFold (updKey a (firstWord c0) (tierDesc tier)) tier rest from rfl]
    apply ih
    rcases h with ⟨c, hc, hw⟩ | ha
    · rcases List.mem_cons.mp hc with rfl | hc'
      · right; simp [updKey, ← hw]
      · left; exact ⟨c, hc', hw⟩
    · right
      simp only [updKey]
      split
      · rfl
      · exact ha

/-- A tier's inner loop never removes a key. -/
theorem tierFold_isSome (cmds : List String) :
    ∀ (a : String → Option String) (tier w : String),
      (a w).isSome = true → (tierFold a tier cmds w).isSome = true := by
  induction cmds with
  | nil => intro a tier w ha; simpa [tierFold] using ha
  | cons c0 rest ih =>
    intro a tier w ha
    rw [show tierFold a tier (c0 :: rest)
        = tierFold (updKey a (firstWord c0) (tierDesc tier)) tier rest from rfl]
    apply ih
    simp only [updKey]
    split
    · rfl
    · exact ha

/-- The combined dictionary holds a key for the first token of every
signature of every tier. -/
theorem dangerousFold_isSome (tiers : List (String × List String)) :
    ∀ (a : String → Option String) (w : String),
      ((a w).isSome = true ∨ ∃ p ∈ tiers, ∃ c ∈ p.2, firstWord c = w) →
      ((tiers.foldl (fun acc p => tierFold acc p.1 p.2) a) w).isSome = true := by
  induction tiers with
  | nil =>
    intro a w h
    rcases h with ha | ⟨p, hp, _⟩
    · simpa using ha
    · exact absurd hp (List.not_mem_nil p)
  | cons p0 rest ih =>
    intro a w h
    rw [List.foldl_cons]
    apply ih
    rcases h with ha | ⟨p, hp, c, hc, hw⟩
    · left; exact tierFold_isSome p0.2 a p0.1 w ha
    · rcases List.mem_cons.mp hp with rfl | hp'
      · left
        have := tierFold_writes p.2 a p.1 w (Or.inl ⟨c, hc, hw⟩)
        simp [this]
      · right; exact ⟨p, hp', c, hc, hw⟩

/-- A tier's inner loop leaves absent keys absent when no signature of the
tier starts with them. -/
theorem tierFold_none (cmds : List String) :
    ∀ (a : String → Option String) (tier w : String),
      a w = none → (∀ c ∈ cmds, firstWord c ≠ w) → tierFold a tier cmds w = none := by
  induction cmds with
  | nil => intro a tier w ha _; simpa [tierFold] using ha
  | cons c0 rest ih =>
    intro a tier w ha hall
    rw [show tierFold a tier (c0 :: rest)
        = tierFold (updKey a (firstWord c0) (tierDesc tier)) tier rest from rfl]
    apply ih
    · simp only [updKey]
      split
      · next heq => exact absurd heq.symm (hall c0 (List.mem_cons_self c0 rest))
      · exact ha
    · intro c hc
      exact hall c (List.mem_cons_of_mem c0 hc)

/-- The combined dictionary has no key `w` when no signature of any tier
has `w` as its first token. -/
theorem dangerousFold_none (tiers : List (String × List String)) :
    ∀ (a : String → Option String) (w : String),
      a w = none → (∀ p ∈ tiers, ∀ c ∈ p.2, firstWord c ≠ w) →
      (tiers.foldl (fun acc p => tierFold acc p.1 p.2) a) w = none := by
  induction tiers with
  | nil => intro a w ha _; simpa using ha
  | cons p0 rest ih =>
    intro a w ha hall
    rw [List.foldl_cons]
    apply ih
    · exact tierFold_none p0.2 a p0.1 w ha (fun c hc => hall p0 (List.mem_cons_self p0 rest) c hc)
    · intro p hp c hc
      exact hall p (List.mem_cons_of_mem p0 hp) c hc

/-- C4 amended: the dangerous-command-family rule matches the command's
first token against the first tokens of the signatures of every configured
tier, the critical tier included.  Whenever the first token of the
(stripped, lowercased) command equals the first token of any signature of
any tier, and the command does not contain a critical signature as a
substring, the family rule fires: the assessed level is `high` or `medium`
and a `Dangerous command:` warning is emitted. -/
theorem assess_family_matches_all_tiers (cfg : Config) (prot : List String)
    (cmd tier c : String) (cmds : List String)
    (ht : (tier, cmds) ∈ cfg.dangerous_commands) (hc : c ∈ cmds)
    (hw : firstWord (lowerStr (stripWS cmd)) = firstWord c)
    (hnc : (critical_commands cfg).any
      (fun pat => strContains (lowerStr (stripWS cmd)) pat) = false) :
    ∃ desc,
      dangerousDict cfg.dangerous_commands (firstWord (lowerStr (stripWS cmd))) = some desc ∧
      ((assess_command_risk cfg prot cmd).level = "high" ∨
        (assess_command_risk cfg prot cmd).level = "medium") ∧
      ("Dangerous command: " ++ desc) ∈ (assess_command_risk cfg prot cmd).warnings := by
  have hsome : (dangerousDict cfg.dangerous_commands
      (firstWord (lowerStr (stripWS cmd)))).isSome = true := by
    unfold dangerousDict
    exact dangerousFold_isSome cfg.dangerous_commands (fun _ => none) _
      (Or.inr ⟨(tier, cmds), ht, c, hc, hw.symm ▸ rfl⟩)
  obtain ⟨desc, hd⟩ := Option.isSome_iff_exists.mp hsome
  refine ⟨desc, hd, ?_⟩
  by_cases hf : cfg.destructive_flags.any
      (fun pat => strContains (lowerStr (stripWS cmd)) pat) = true
  · simp [assess_command_risk, hnc, hd, hf]
  · simp only [Bool.not_eq_true] at hf
    simp [assess_command_risk, hnc, hd, hf]

/-- C4 amended witness: in `cfgShutdown` (only a critical tier, holding
`shutdown -h now`) the command `shutdown now` fires the family rule. -/
theorem assess_family_matches_all_tiers_witness :
    (("critical", ["shutdown -h now"]) ∈ cfgShutdown.dangerous_commands ∧
      "shutdown -h now" ∈ ["shutdown -h now"] ∧
      firstWord (lowerStr (stripWS "shutdown now")) = firstWord "shutdown -h now" ∧
      (critical_commands cfgShutdown).any
        (fun pat => strContains (lowerStr (stripWS "shutdown now")) pat) = false) ∧
    (∃ desc,
      dangerousDict cfgShutdown.dangerous_commands
        (firstWord (lowerStr (stripWS "shutdown now"))) = some desc ∧
      ((assess_command_risk cfgShutdown [] "shutdown now").level = "high" ∨
        (assess_command_risk cfgShutdown [] "shutdown now").level = "medium") ∧
      ("Dangerous command: " ++ desc) ∈
        (assess_command_risk cfgShutdown [] "shutdown now").warnings) :=
  ⟨⟨by decide, by decide, by decide, by decide⟩,
    assess_family_matches_all_tiers cfgShutdown [] "shutdown now" "critical"
      "shutdown -h now" ["shutdown -h now"] (by decide) (by decide) (by decide) (by decide)⟩

/-- Characterisation of the protected-path loop when `os.path.abspath`
succeeds on every protected directory. -/
theorem protScan_spec (prot : List String) :
    ∀ (resolve : String → Option String) (abs : String),
      (∀ p ∈ prot, (resolve p).isSome = true) →
      (protScan resolve abs prot = true ↔
        ∃ p ∈ prot, ∃ pp, resolve p = some pp ∧ strStarts pp abs = true) := by
  induction prot with
  | nil => intro resolve abs _; simp [protScan]
  | cons p0 rest ih =>
    intro resolve abs hall
    obtain ⟨pp0, hpp0⟩ :=
      Option.isSome_iff_exists.mp (hall p0 (List.mem_cons_self p0 rest))
    simp only [protScan, hpp0, Bool.or_eq_true]
    constructor
    · rintro (h | h)
      · exact ⟨p0, List.mem_cons_self p0 rest, pp0, hpp0, h⟩
      · obtain ⟨p, hp, pp, h1, h2⟩ :=
          (ih resolve abs (fun q hq => hall q (List.mem_cons_of_mem p0 hq))).mp h
        exact ⟨p, List.mem_cons_of_mem p0 hp, pp, h1, h2⟩
    · rintro ⟨p, hp, pp, h1, h2⟩
      rcases List.mem_cons.mp hp with rfl | hp'
      · left
        rw [hpp0] at h1
        rw [Option.some.inj h1]
        exact h2
      · right
        exact (ih resolve abs (fun q hq => hall q (List.mem_cons_of_mem p0 hq))).mpr
          ⟨p, hp', pp, h1, h2⟩

/-- C5 counterexample: with resolution being the identity on these already
absolute paths (as `os.path.abspath` is), `/usrlocal` is reported protected
by a protected directory `/usr`, although it is neither equal to `/usr` nor
nested under it: the code compares by raw string prefix
(`abs_path.startswith(...)`), not by filesystem descent. -/
theorem is_path_protected_not_descendant_based :
    is_path_protected (fun s => some s) ["/usr"] "/usrlocal" = true ∧
    isDescendantOf "/usrlocal" "/usr" = false := by
  decide

/-- C5 amended: `is_path_protected` returns false when resolution of the
input fails, and (when every protected directory resolves) returns true iff
the resolved input is a string-prefix extension of some resolved protected
directory — a prefix test that covers equal-or-nested paths but also
accepts sibling paths sharing the directory's name as a textual prefix. -/
theorem is_path_protected_spec (resolve : String → Option String) (prot : List String)
    (path : String) :
    (resolve path = none → is_path_protected resolve prot path = false) ∧
    (∀ abs, resolve path = some abs → (∀ p ∈ prot, (resolve p).isSome = true) →
      (is_path_protected resolve prot path = true ↔
        ∃ p ∈ prot, ∃ pp, resolve p = some pp ∧ strStarts pp abs = true)) := by
  constructor
  · intro h; simp [is_path_protected, h]
  · intro abs h hall
    simp only [is_path_protected, h]
    exact protScan_spec prot resolve abs hall

/-- C5 amended witness: a genuinely nested path is reported protected. -/
theorem is_path_protected_spec_witness :
    is_path_protected (fun s => some s) ["/usr"] "/usr/local" = true :=
  ((is_path_protected_spec (fun s => some s) ["/usr"] "/usr/local").2 "/usr/local" rfl
      (fun p _ => rfl)).mpr
    ⟨"/usr", List.mem_singleton.mpr rfl, "/usr", rfl, by decide⟩

/-- C6 counterexample: an unreadable-but-present configuration source does
not fall back to the defaults: only `FileNotFoundError` and
`json.JSONDecodeError` are caught, so e.g. a `PermissionError` from `open`
propagates out of `_load_config` (modelled by `LoadResult.raised`, a
different constructor from every `LoadResult.ok`). -/
theorem load_config_unreadable_raises :
    load_config (fun _ => none) ReadResult.unreadable = LoadResult.raised ∧
    load_config (fun _ => none) ReadResult.missing = LoadResult.ok get_default_config false :=
  ⟨rfl, rfl⟩

/-- C6 amended: on a missing source, or on content whose JSON parse fails,
`_load_config` returns the built-in default configuration instead of
raising — with a diagnostic only in the malformed-content case — and the
defaults are safe commands `dir`/`ls`/`pwd`, empty dangerous-command tiers,
and destructive flags `-rf` and `/s /q`; an unreadable-but-present source,
however, propagates its exception. -/
theorem load_config_fallback (parseJson : String → Option Config) (s : String) :
    load_config parseJson ReadResult.missing = LoadResult.ok get_default_config false ∧
    (parseJson s = none →
      load_config parseJson (ReadResult.content s) = LoadResult.ok get_default_config true) ∧
    (∀ cfg, parseJson s = some cfg →
      load_config parseJson (ReadResult.content s) = LoadResult.ok cfg false) ∧
    get_default_config.safe_commands = ["dir", "ls", "pwd"] ∧
    critical_commands get_default_config = [] ∧
    (∀ p ∈ get_default_config.dangerous_commands, p.2 = []) ∧
    get_default_config.destructive_flags = ["-rf", "/s /q"] := by
  refine ⟨rfl, ?_, ?_, rfl, by decide, by decide, rfl⟩
  · intro h; simp [load_config, h]
  · intro cfg h; simp [load_config, h]

/-- C6 amended witness: a parse that rejects the content `x` makes the
loader fall back to the defaults with the diagnostic flag set. -/
theorem load_config_fallback_witness :
    ((fun (_ : String) => (none : Option Config)) "x" = (none : Option Config)) ∧
    load_config (fun _ => none) (ReadResult.content "x") =
      LoadResult.ok get_default_config true :=
  ⟨rfl, (load_config_fallback (fun _ => none) "x").2.1 rfl⟩

/-- `validate_command`, blocked branch: in safe mode a critical assessment
returns early with `allowed=False`. -/
theorem validate_eq_blocked (cfg : Config) (prot : List String)
    (resolve : String → Option String) (sm : Bool) (cmd : String) (wd : Option String)
    (h : sm = true ∧ (assess_command_risk cfg prot cmd).level = "critical") :
    validate_command cfg prot resolve sm cmd wd =
      { allowed := false
      , risk_level := (assess_command_risk cfg prot cmd).level
      , reason := (assess_command_risk cfg prot cmd).reason
      , warnings := (assess_command_risk cfg prot cmd).warnings
      , requires_confirmation := false
      , blocked_reason := some "Command blocked due to critical risk level" } := by
  simp only [validate_command, if_pos h]

/-- `validate_command` without a working directory, non-blocked branch. -/
theorem validate_none_eq (cfg : Config) (prot : List String)
    (resolve : String → Option String) (sm : Bool) (cmd : String)
    (h : ¬(sm = true ∧ (assess_command_risk cfg prot cmd).level = "critical")) :
    validate_command cfg prot resolve sm cmd none =
      { allowed := true
      , risk_level := (assess_command_risk cfg prot cmd).level
      , reason := (assess_command_risk cfg prot cmd).reason
      , warnings := (assess_command_risk cfg prot cmd).warnings
      , requires_confirmation :=
          decide ((assess_command_risk cfg prot cmd).level = "high" ∨
            (assess_command_risk cfg prot cmd).level = "medium")
      , blocked_reason := none } := by
  simp only [validate_command, if_neg h]

/-- `validate_command` with a truthy, protected working directory,
non-blocked branch. -/
theorem validate_some_hit (cfg : Config) (prot : List String)
    (resolve : String → Option String) (sm : Bool) (cmd w : String)
    (h : ¬(sm = true ∧ (assess_command_risk cfg prot cmd).level = "critical"))
    (hw : w ≠ "" ∧ is_path_protected resolve prot w = true) :
    validate_command cfg prot resolve sm cmd (some w) =
      { allowed := true
      , risk_level := (assess_command_risk cfg prot cmd).level
      , reason := (assess_command_risk cfg prot cmd).reason
      , warnings := (assess_command_risk cfg prot cmd).warnings ++
          ["Working directory is in protected system path: " ++ w]
      , requires_confirmation :=
          (decide ((assess_command_risk cfg prot cmd).level = "high" ∨
            (assess_command_risk cfg prot cmd).level = "medium")) || sm
      , blocked_reason := none } := by
  simp only [validate_command, if_neg h, if_pos hw]

/-- `validate_command` with a falsy or unprotected working directory,
non-blocked branch. -/
theorem validate_some_miss (cfg : Config) (prot : List String)
    (resolve : String → Option String) (sm : Bool) (cmd w : String)
    (h : ¬(sm = true ∧ (assess_command_risk cfg prot cmd).level = "critical"))
    (hw : ¬(w ≠ "" ∧ is_path_protected resolve prot w = true)) :
    validate_command cfg prot resolve sm cmd (some w) =
      { allowed := true
      , risk_level := (assess_command_risk cfg prot cmd).level
      , reason := (assess_command_risk cfg prot cmd).reason
      , warnings := (assess_command_risk cfg prot cmd).warnings
      , requires_confirmation :=
          decide ((assess_command_risk cfg prot cmd).level = "high" ∨
            (assess_command_risk cfg prot cmd).level = "medium")
      , blocked_reason := none } := by
  simp only [validate_command, if_neg h, if_neg hw]

/-- C1: `validate_command` blocks (allowed=false) iff safe mode is on and
the assessed level is critical, in which case the blocked reason is the
fixed non-empty text and confirmation is not requested; in every other
case the command is allowed, and a medium or high assessment sets
`requires_confirmation`. -/
theorem validate_blocks_iff_safe_mode_critical (cfg : Config) (prot : List String)
    (resolve : String → Option String) (sm : Bool) (cmd : String) (wd : Option String) :
    ((validate_command cfg prot resolve sm cmd wd).allowed = false ↔
      sm = true ∧ (assess_command_risk cfg prot cmd).level = "critical") ∧
    (sm = true ∧ (assess_command_risk cfg prot cmd).level = "critical" →
      (validate_command cfg prot resolve sm cmd wd).blocked_reason =
          some "Command blocked due to critical risk level" ∧
        (validate_command cfg prot resolve sm cmd wd).requires_confirmation = false) ∧
    ((assess_command_risk cfg prot cmd).level = "high" ∨
        (assess_command_risk cfg prot cmd).level = "medium" →
      (validate_command cfg prot resolve sm cmd wd).requires_confirmation = true) := by
  by_cases h : sm = true ∧ (assess_command_risk cfg prot cmd).level = "critical"
  · rw [validate_eq_blocked cfg prot resolve sm cmd wd h]
    refine ⟨by simpa using h, fun _ => ⟨rfl, rfl⟩, ?_⟩
    intro hl
    exfalso
    rcases hl with hl | hl <;> rw [h.2] at hl <;> exact absurd hl (by decide)
  · have hrc : ∀ hl : (assess_command_risk cfg prot cmd).level = "high" ∨
        (assess_command_risk cfg prot cmd).level = "medium",
        decide ((assess_command_risk cfg prot cmd).level = "high" ∨
          (assess_command_risk cfg prot cmd).level = "medium") = true :=
      fun hl => decide_eq_true hl
    cases wd with
    | none =>
      rw [validate_none_eq cfg prot resolve sm cmd h]
      exact ⟨by simpa using h, fun hc => absurd hc h, fun hl => hrc hl⟩
    | some w =>
      by_cases hw : w ≠ "" ∧ is_path_protected resolve prot w = true
      · rw [validate_some_hit cfg prot resolve sm cmd w h hw]
        exact ⟨by simpa using h, fun hc => absurd hc h,
          fun hl => by simp [hrc hl]⟩
      · rw [validate_some_miss cfg prot resolve sm cmd w h hw]
        exact ⟨by simpa using h, fun hc => absurd hc h, fun hl => hrc hl⟩

/-- C1 witness: under `cfgFmt` (critical signature `fmt`) in safe mode the
command `fmt` is blocked with the fixed reason and no confirmation, and
under the default configuration the suspicious command `2>&1` (level
medium) requires confirmation. -/
theorem validate_blocks_iff_safe_mode_critical_witness :
    ((true = true ∧ (assess_command_risk cfgFmt [] "fmt").level = "critical") ∧
      (validate_command cfgFmt [] (fun _ => none) true "fmt" none).blocked_reason =
          some "Command blocked due to critical risk level" ∧
      (validate_command cfgFmt [] (fun _ => none) true "fmt" none).requires_confirmation
          = false) ∧
    (((assess_command_risk get_default_config [] "2>&1").level = "high" ∨
        (assess_command_risk get_default_config [] "2>&1").level = "medium") ∧
      (validate_command get_default_config [] (fun _ => none) true "2>&1" none).requires_confirmation
          = true) :=
  ⟨⟨⟨rfl, by decide⟩,
    (validate_blocks_iff_safe_mode_critical cfgFmt [] (fun _ => none) true "fmt" none).2.1
      ⟨rfl, by decide⟩⟩,
  ⟨Or.inr (by decide),
    (validate_blocks_iff_safe_mode_critical get_default_config [] (fun _ => none) true
      "2>&1" none).2.2 (Or.inr (by decide))⟩⟩

/-- C7: every decision of `validate_command` satisfies the invariants:
not allowed implies the blocked reason is the fixed non-null text;
a requested confirmation implies the command is allowed; and a requested
confirmation implies a null blocked reason (so confirmation and blocking
never co-occur). -/
theorem validate_decision_invariants (cfg : Config) (prot : List String)
    (resolve : String → Option String) (sm : Bool) (cmd : String) (wd : Option String) :
    ((validate_command cfg prot resolve sm cmd wd).allowed = false →
      (validate_command cfg prot resolve sm cmd wd).blocked_reason =
        some "Command blocked due to critical risk level") ∧
    ((validate_command cfg prot resolve sm cmd wd).requires_confirmation = true →
      (validate_command cfg prot resolve sm cmd wd).allowed = true) ∧
    ((validate_command cfg prot resolve sm cmd wd).requires_confirmation = true →
      (validate_command cfg prot resolve sm cmd wd).blocked_reason = none) := by
  by_cases h : sm = true ∧ (assess_command_risk cfg prot cmd).level = "critical"
  · rw [validate_eq_blocked cfg prot resolve sm cmd wd h]
    exact ⟨fun _ => rfl, fun hc => absurd hc (by simp), fun hc => absurd hc (by simp)⟩
  · cases wd with
    | none =>
      rw [validate_none_eq cfg prot resolve sm cmd h]
      exact ⟨fun ha => absurd ha (by simp), fun _ => rfl, fun _ => rfl⟩
    | some w =>
      by_cases hw : w ≠ "" ∧ is_path_protected resolve prot w = true
      · rw [validate_some_hit cfg prot resolve sm cmd w h hw]
        exact ⟨fun ha => absurd ha (by simp), fun _ => rfl, fun _ => rfl⟩
      · rw [validate_some_miss cfg prot resolve sm cmd w h hw]
        exact ⟨fun ha => absurd ha (by simp), fun _ => rfl, fun _ => rfl⟩

/-- C7 witness: a blocked decision (safe mode, critical `fmt`) indeed
carries the non-null blocked reason. -/
theorem validate_decision_invariants_witness :
    (validate_command cfgFmt [] (fun _ => none) true "fmt" none).allowed = false ∧
    (validate_command cfgFmt [] (fun _ => none) true "fmt" none).blocked_reason =
      some "Command blocked due to critical risk level" :=
  ⟨by decide,
    (validate_decision_invariants cfgFmt [] (fun _ => none) true "fmt" none).1 (by decide)⟩

/-- C8 counterexample: the empty string is a supplied working directory
that `is_path_protected` reports as protected (here `os.path.abspath('')`
resolves to a protected current directory), yet `validate_command` appends
no warning and does not force confirmation even in safe mode: Python's
`if working_dir and ...` treats the empty string as absent. -/
theorem validate_empty_workdir_skipped :
    is_path_protected (fun _ => some "/p") ["/p"] "" = true ∧
    (validate_command get_default_config ["/p"] (fun _ => some "/p") true "x"
        (some "")).warnings = [] ∧
    (validate_command get_default_config ["/p"] (fun _ => some "/p") true "x"
        (some "")).requires_confirmation = false := by
  decide

/-- C8 amended: when the supplied working directory is a non-empty string
(Python truthiness) and `is_path_protected` holds for it, a non-blocked
decision gets the protected-working-directory warning appended and, in
safe mode, `requires_confirmation` forced to true even for a safe or low
level; a safe-mode critical command remains blocked regardless of the
working directory. -/
theorem validate_protected_workdir (cfg : Config) (prot : List String)
    (resolve : String → Option String) (sm : Bool) (cmd w : String)
    (hw : w ≠ "") (hp : is_path_protected resolve prot w = true) :
    (¬(sm = true ∧ (assess_command_risk cfg prot cmd).level = "critical") →
      (validate_command cfg prot resolve sm cmd (some w)).warnings =
          (assess_command_risk cfg prot cmd).warnings ++
            ["Working directory is in protected system path: " ++ w] ∧
        (sm = true →
          (validate_command cfg prot resolve sm cmd (some w)).requires_confirmation = true)) ∧
    (sm = true ∧ (assess_command_risk cfg prot cmd).level = "critical" →
      (validate_command cfg prot resolve sm cmd (some w)).allowed = false ∧
        (validate_command cfg prot resolve sm cmd (some w)).blocked_reason =
          some "Command blocked due to critical risk level") := by
  constructor
  · intro h
    rw [validate_some_hit cfg prot resolve sm cmd w h ⟨hw, hp⟩]
    exact ⟨rfl, fun hsm => by simp [hsm]⟩
  · intro h
    rw [validate_eq_blocked cfg prot resolve sm cmd (some w) h]
    exact ⟨rfl, rfl⟩

/-- C8 amended witness: a low-risk command in safe mode with protected
non-empty working directory `/w` gets the warning and forced
confirmation. -/
theorem validate_protected_workdir_witness :
    ("/w" ≠ "" ∧ is_path_protected (fun _ => some "/p") ["/p"] "/w" = true) ∧
    (validate_command get_default_config ["/p"] (fun _ => some "/p") true "x"
        (some "/w")).warnings =
      (assess_command_risk get_default_config ["/p"] "x").warnings ++
        ["Working directory is in protected system path: /w"] ∧
    (validate_command get_default_config ["/p"] (fun _ => some "/p") true "x"
        (some "/w")).requires_confirmation = true :=
  ⟨⟨by decide, by decide⟩,
    ((validate_protected_workdir get_default_config ["/p"] (fun _ => some "/p") true "x" "/w"
        (by decide) (by decide)).1 (by decide)).1,
    ((validate_protected_workdir get_default_config ["/p"] (fun _ => some "/p") true "x" "/w"
        (by decide) (by decide)).1 (by decide)).2 rfl⟩

/-- A string with an empty character list is the empty string. -/
theorem string_eq_empty_of_data {s : String} (h : s.data = []) : s = "" :=
  String.ext h

/-- The empty string contains no non-empty substring. -/
theorem strContains_empty (pat : String) (h : pat ≠ "") : strContains "" pat = false := by
  have he : strContains "" pat = pat.data.isEmpty := rfl
  rw [he]
  cases hd : pat.data with
  | nil => exact absurd (string_eq_empty_of_data hd) h
  | cons c cs => rfl

/-- Lowercasing preserves non-emptiness. -/
theorem lowerStr_ne_empty {p : String} (h : p ≠ "") : lowerStr p ≠ "" := by
  intro he
  have hd : p.data.map Char.toLower = [] := congrArg String.data he
  exact h (string_eq_empty_of_data (List.map_eq_nil_iff.mp hd))

/-- Stripping an all-whitespace string yields the empty string. -/
theorem stripWS_of_all_ws {cmd : String} (h : cmd.data.all Char.isWhitespace = true) :
    stripWS cmd = "" := by
  have h1 : cmd.data.dropWhile Char.isWhitespace = [] :=
    List.dropWhile_eq_nil_iff.mpr (List.all_eq_true.mp h)
  unfold stripWS
  rw [h1]
  rfl

/-- C9: an empty or whitespace-only command (it has no first token) is
assessed `low` / `Standard command` with no warnings, and
`validate_command` treats it like any non-critical command (allowed, no
blocked reason); both functions are total in the embedding, so neither
raises.  The configuration hypotheses mirror the spec's well-formedness:
every dangerous-command entry has a first token, and no configured safe
command or protected path is the empty string. -/
theorem assess_blank_command (cfg : Config) (prot : List String)
    (resolve : String → Option String) (sm : Bool) (wd : Option String) (cmd : String)
    (hcmd : cmd.data.all Char.isWhitespace = true)
    (hdc : ∀ p ∈ cfg.dangerous_commands, ∀ c ∈ p.2, firstWord c ≠ "")
    (hsafe : "" ∉ cfg.safe_commands)
    (hprot : ∀ p ∈ prot, p ≠ "") :
    assess_command_risk cfg prot cmd = ⟨"low", "Standard command", []⟩ ∧
    (validate_command cfg prot resolve sm cmd wd).allowed = true ∧
    (validate_command cfg prot resolve sm cmd wd).blocked_reason = none := by
  have hnorm : lowerStr (stripWS cmd) = "" := by rw [stripWS_of_all_ws hcmd]; rfl
  have hcontains : ∀ pat ∈ critical_commands cfg, strContains "" pat = false := by
    intro pat hp
    obtain ⟨q, hq, _, hq2⟩ := critical_commands_mem hp
    have hfw := hdc q hq pat hq2
    have hne : pat ≠ "" := fun he => hfw (by rw [he]; rfl)
    exact strContains_empty pat hne
  have hcritical : (critical_commands cfg).any (fun pat => strContains "" pat) = false := by
    cases han : (critical_commands cfg).any (fun pat => strContains "" pat) with
    | false => rfl
    | true =>
      obtain ⟨x, hx, hfx⟩ := List.any_eq_true.mp han
      rw [hcontains x hx] at hfx
      exact absurd hfx (by decide)
  have hdict : dangerousDict cfg.dangerous_commands (firstWord "") = none := by
    rw [show firstWord "" = "" from rfl]
    unfold dangerousDict
    exact dangerousFold_none cfg.dangerous_commands (fun _ => none) "" rfl hdc
  have hfind : prot.find? (fun p => strContains "" (lowerStr p)) = none :=
    List.find?_eq_none.mpr (fun p hp => by
      simp [strContains_empty (lowerStr p) (lowerStr_ne_empty (hprot p hp))])
  have hsus : suspiciousHit "" = none := rfl
  have hassess : assess_command_risk cfg prot cmd = ⟨"low", "Standard command", []⟩ := by
    simp only [assess_command_risk, hnorm, hcritical, hdict, hfind, hsus,
      Bool.false_eq_true, if_false]
    rw [show firstWord "" = "" from rfl, if_neg hsafe]
  have hnb : ¬(sm = true ∧ (assess_command_risk cfg prot cmd).level = "critical") := by
    rintro ⟨-, hcrit⟩
    rw [hassess] at hcrit
    exact absurd hcrit (by decide)
  refine ⟨hassess, ?_⟩
  cases wd with
  | none =>
    rw [validate_none_eq cfg prot resolve sm cmd hnb]
    exact ⟨rfl, rfl⟩
  | some w =>
    by_cases hw : w ≠ "" ∧ is_path_protected resolve prot w = true
    · rw [validate_some_hit cfg prot resolve sm cmd w hnb hw]
      exact ⟨rfl, rfl⟩
    · rw [validate_some_miss cfg prot resolve sm cmd w hnb hw]
      exact ⟨rfl, rfl⟩

/-- C9 witness: the whitespace-only command under the default
configuration. -/
theorem assess_blank_command_witness :
    (("  " : String).data.all Char.isWhitespace = true ∧
      (∀ p ∈ get_default_config.dangerous_commands, ∀ c ∈ p.2, firstWord c ≠ "") ∧
      "" ∉ get_default_config.safe_commands) ∧
    assess_command_risk get_default_config [] "  " = ⟨"low", "Standard command", []⟩ ∧
    (validate_command get_default_config [] (fun _ => none) true "  " none).allowed = true ∧
    (validate_command get_default_config [] (fun _ => none) true "  " none).blocked_reason
      = none :=
  ⟨⟨by decide, by decide, by decide⟩,
    assess_blank_command get_default_config [] (fun _ => none) true none "  "
      (by decide) (by decide) (by decide) (by intro p hp; exact absurd hp (List.not_mem_nil p))⟩

/-- With the critical rule not firing, the assessed level is one of the
four non-critical levels. -/
theorem assess_level_cases (cfg : Config) (prot : List String) (cmd : String)
    (h : (critical_commands cfg).any
      (fun pat => strContains (lowerStr (stripWS cmd)) pat) = false) :
    (assess_command_risk cfg prot cmd).level ∈ (["safe", "low", "medium", "high"] : List String) := by
  have hc : ¬((critical_commands cfg).any
      (fun pat => strContains (lowerStr (stripWS cmd)) pat) = true) := by
    rw [h]
    exact Bool.false_ne_true
  simp only [assess_command_risk]
  rw [if_neg hc]
  split
  · split <;> simp
  · split
    · simp
    · split
      · simp
      · split <;> simp

/-- C10: under the built-in default configuration the critical tier is
empty, so no command is assessed `critical` (the level is always one of
safe/low/medium/high) and `validate_command` allows every command for
every working directory and safe-mode value: the blocking branch is
unreachable with compiled-in defaults. -/
theorem default_config_never_blocks (prot : List String) (resolve : String → Option String)
    (sm : Bool) (cmd : String) (wd : Option String) :
    critical_commands get_default_config = [] ∧
    (assess_command_risk get_default_config prot cmd).level ∈
      (["safe", "low", "medium", "high"] : List String) ∧
    (validate_command get_default_config prot resolve sm cmd wd).allowed = true := by
  have hc : critical_commands get_default_config = [] := rfl
  have hany : (critical_commands get_default_config).any
      (fun pat => strContains (lowerStr (stripWS cmd)) pat) = false := by
    rw [hc]
    rfl
  have hmem := assess_level_cases get_default_config prot cmd hany
  refine ⟨hc, hmem, ?_⟩
  have hnb : ¬(sm = true ∧
      (assess_command_risk get_default_config prot cmd).level = "critical") := by
    rintro ⟨-, hcrit⟩
    rw [hcrit] at hmem
    exact absurd hmem (by decide)
  cases wd with
  | none => rw [validate_none_eq get_default_config prot resolve sm cmd hnb]
  | some w =>
    by_cases hw : w ≠ "" ∧ is_path_protected resolve prot w = true
    · rw [validate_some_hit get_default_config prot resolve sm cmd w hnb hw]
    · rw [validate_some_miss get_default_config prot resolve sm cmd w hnb hw]
